import Mathlib

/-!
Verification of the passkey protocol core of tacy-stack.

The definitions below are a shallow embedding of `src/lib/passkey.ts` and of
the error-mapping fragment of the route handlers in `src/index.ts`.  The two
in-memory challenge `Map`s and the `passkeys` database table are modelled as
association lists inside an explicit `ServerState`; `Date.now()` is passed in
as a `now : Nat` argument (milliseconds); values produced by
`crypto.randomUUID()` and by the library's challenge generator are passed in
as explicit arguments.  Calls into the external `@simplewebauthn/server`
library (which is not part of this repository) are modelled from the spec;
each such definition carries a doc comment saying so.
-/

/-- Decidable equality for `Except`, so concrete ceremony outcomes can be
checked by `decide`. -/
instance {ε α : Type} [DecidableEq ε] [DecidableEq α] :
    DecidableEq (Except ε α) := fun a b =>
  match a, b with
  | .error e1, .error e2 =>
      if h : e1 = e2 then .isTrue (by rw [h]) else .isFalse (by simp [h])
  | .error _, .ok _ => .isFalse (by simp)
  | .ok _, .error _ => .isFalse (by simp)
  | .ok v1, .ok v2 =>
      if h : v1 = v2 then .isTrue (by rw [h]) else .isFalse (by simp [h])

namespace TacyStack

/-- Row of the `passkeys` table as read by `src/lib/passkey.ts`
(`created_at` and `last_used_at` held in epoch milliseconds, as
`Date.getTime()` returns). -/
structure PasskeyRow where
  id : String
  user_id : Int
  credential_id : String
  public_key : String
  counter : Nat
  transports : Option String
  name : Option String
  created_at : Nat
  last_used_at : Option Nat
deriving Repr, DecidableEq

/-- `RegistrationChallenge` interface (passkey.ts lines 30-34). -/
structure RegistrationChallenge where
  challenge : String
  user_id : Int
  expires_at : Nat
deriving Repr, DecidableEq

/-- `AuthenticationChallenge` interface (passkey.ts lines 36-39). -/
structure AuthenticationChallenge where
  challenge : String
  expires_at : Nat
deriving Repr, DecidableEq

/-- The module-level mutable state of passkey.ts: the two in-memory
challenge maps plus the `passkeys` table reached through drizzle. -/
structure ServerState where
  registrationChallenges : List RegistrationChallenge
  authenticationChallenges : List AuthenticationChallenge
  passkeys : List PasskeyRow
deriving Repr, DecidableEq

/-- `CHALLENGE_TTL = 5 * 60 * 1000` (passkey.ts line 46), milliseconds. -/
def CHALLENGE_TTL : Nat := 5 * 60 * 1000

/-- JS `Map.get` over an association list, `key` extracting the map key. -/
def mapGet (key : α → String) (s : List α) (c : String) : Option α :=
  s.find? (fun e => key e == c)

/-- JS `Map.set`: replace the entry with the same key in place (a JS map
holds at most one entry per key, so replacing the first match suffices),
or append a new entry at the end. -/
def mapSet (key : α → String) (s : List α) (e : α) : List α :=
  match s with
  | [] => [e]
  | hd :: tl => if key hd == key e then e :: tl else hd :: mapSet key tl e

/-- JS `Map.delete`. -/
def mapDelete (key : α → String) (s : List α) (c : String) : List α :=
  s.filter (fun e => !(key e == c))

/-- One constructor per `throw new Error(...)` site reachable from the
passkey ceremony functions (the last constructor is the counter error the
external verification library raises, see `verifyAuthenticationResponse`). -/
inductive PasskeyError where
  | invalidOrExpiredChallenge
  | challengeExpired
  | userIdMismatch
  | registrationVerificationFailed
  | failedToCreatePasskey
  | passkeyNotFound
  | authenticationVerificationFailed
  | possibleCloneDetected
deriving Repr, DecidableEq

/-- The `Error.message` string of each throw site (passkey.ts; the clone
message is the library's counter-mismatch message, modelled). -/
def PasskeyError.message : PasskeyError → String
  | .invalidOrExpiredChallenge => "Invalid or expired challenge"
  | .challengeExpired => "Challenge expired"
  | .userIdMismatch => "User ID mismatch"
  | .registrationVerificationFailed => "Registration verification failed"
  | .failedToCreatePasskey => "Failed to create passkey"
  | .passkeyNotFound => "Passkey not found"
  | .authenticationVerificationFailed => "Authentication verification failed"
  | .possibleCloneDetected => "Response counter value was lower than expected"

/-- The error taxonomy of spec section 7. -/
inductive Taxonomy where
  | ChallengeInvalid
  | SubjectMismatch
  | VerificationFailed
  | CredentialNotFound
  | DuplicateCredential
  | PossibleCloneDetected
  | RepositoryError
deriving Repr, DecidableEq

/-- Classification of each concrete error under the spec taxonomy
(`ChallengeInvalid` covers missing and expired challenges, spec section 7). -/
def PasskeyError.taxonomy : PasskeyError → Taxonomy
  | .invalidOrExpiredChallenge => .ChallengeInvalid
  | .challengeExpired => .ChallengeInvalid
  | .userIdMismatch => .SubjectMismatch
  | .registrationVerificationFailed => .VerificationFailed
  | .failedToCreatePasskey => .RepositoryError
  | .passkeyNotFound => .CredentialNotFound
  | .authenticationVerificationFailed => .VerificationFailed
  | .possibleCloneDetected => .PossibleCloneDetected

/-- `User` as consumed by `createRegistrationOptions` (lib/auth.ts). -/
structure User where
  id : Int
  username : String
  name : Option String
deriving Repr, DecidableEq

/-- The `Passkey` interface passkey.ts returns (timestamps converted from
milliseconds to whole seconds with `Math.floor(... / 1000)`). -/
structure Passkey where
  id : String
  user_id : Int
  credential_id : String
  public_key : String
  counter : Nat
  transports : Option String
  name : Option String
  created_at : Nat
  last_used_at : Option Nat
deriving Repr, DecidableEq

/-- Conversion from a table row to the `Passkey` interface
(passkey.ts lines 185-197 and 299-311). -/
def rowToPasskey (p : PasskeyRow) : Passkey :=
  { id := p.id
    user_id := p.user_id
    credential_id := p.credential_id
    public_key := p.public_key
    counter := p.counter
    transports := p.transports
    name := p.name
    created_at := p.created_at / 1000
    last_used_at := p.last_used_at.map (fun t => t / 1000) }

/-- Registration response submitted by the client.  `credentialId`,
`publicKey` (base64url), `credCounter` and `transports` are the fields the
verification library extracts into `registrationInfo.credential`;
`cryptoValid` abstracts whether the attestation passes the library's
origin / RP-ID / signed-challenge / signature checks. -/
structure RegistrationResponseJSON where
  credentialId : String
  publicKey : String
  credCounter : Nat
  transports : Option (List String)
  cryptoValid : Bool
deriving Repr, DecidableEq

/-- The `registrationInfo.credential` data the library hands back. -/
structure RegistrationInfo where
  credentialId : String
  publicKey : String
  counter : Nat
deriving Repr, DecidableEq

/-- Modelled from the spec: `verifyRegistrationResponse` of
`@simplewebauthn/server` (external library, not in this repository).  Spec
section 4.2 step 3: confirm origin and RP-ID, confirm the signed challenge,
confirm the attestation signature; any mismatch is a verification failure.
We abstract these cryptographic checks as the `cryptoValid` flag and pass
the extracted credential fields through; `none` corresponds to
`!verification.verified || !verification.registrationInfo`. -/
def verifyRegistrationResponse (response : RegistrationResponseJSON) :
    Option RegistrationInfo :=
  if response.cryptoValid then
    some { credentialId := response.credentialId
           publicKey := response.publicKey
           counter := response.credCounter }
  else
    none

/-- Authentication response submitted by the client.  `id` is the base64url
credential id passkey.ts uses for lookup; `newCounter` is the signature
counter embedded in the authenticator data; `cryptoValid` abstracts the
library's signature / origin / RP-ID / challenge checks. -/
structure AuthenticationResponseJSON where
  id : String
  newCounter : Nat
  cryptoValid : Bool
deriving Repr, DecidableEq

/-- Modelled from the spec: `verifyAuthenticationResponse` of
`@simplewebauthn/server` (external library, not in this repository).  Spec
section 4.3 steps 3-4: verify the assertion (abstracted as `cryptoValid`),
then apply the clone-detection policy — if both the stored counter and the
reported counter are non-zero and the reported value is not strictly
greater, fail (possible cloned authenticator); a zero counter on both sides
is accepted with no clone check.  On success the library reports
`authenticationInfo.newCounter`, the counter from the response. -/
def verifyAuthenticationResponse (response : AuthenticationResponseJSON)
    (storedCounter : Nat) : Except PasskeyError Nat :=
  if !response.cryptoValid then
    .error .authenticationVerificationFailed
  else if storedCounter != 0 && response.newCounter != 0 &&
      response.newCounter <= storedCounter then
    .error .possibleCloneDetected
  else
    .ok response.newCounter

/-- `getPasskeysForUser` (passkey.ts lines 292-312): all rows with the given
`user_id`, converted to the `Passkey` interface. -/
def getPasskeysForUser (st : ServerState) (userId : Int) : List Passkey :=
  (st.passkeys.filter (fun p => p.user_id == userId)).map rowToPasskey

/-- Entry of the `excludeCredentials` list built in
`createRegistrationOptions` (passkey.ts lines 89-94): the stored
`credential_id` plus the comma-separated `transports` column split back
into a list (`cred.transports?.split(",")`). -/
structure ExcludeCredential where
  id : String
  transports : Option (List String)
deriving Repr, DecidableEq

/-- The registration options fields this model tracks (challenge, user
fields, exclude-list).  The library echo of RP data and authenticator
selection carries no program logic. -/
structure RegistrationOptions where
  challenge : String
  userName : String
  userDisplayName : String
  excludeCredentials : List ExcludeCredential
deriving Repr, DecidableEq

/-- `createRegistrationOptions` (passkey.ts lines 77-109).  The library call
`generateRegistrationOptions` is external; modelled from the spec, it
mints the fresh random challenge (here the `freshChallenge` argument) and
echoes the exclude-list built by this function.  The function then records
the challenge with `expires_at = Date.now() + CHALLENGE_TTL`.
`userDisplayName` is `user.name || user.username` (JS `||`: an empty string
falls back as well). -/
def createRegistrationOptions (st : ServerState) (now : Nat) (user : User)
    (freshChallenge : String) : ServerState × RegistrationOptions :=
  let existingCredentials := getPasskeysForUser st user.id
  let options : RegistrationOptions :=
    { challenge := freshChallenge
      userName := user.username
      userDisplayName :=
        match user.name with
        | none => user.username
        | some s => if s = "" then user.username else s
      excludeCredentials := existingCredentials.map (fun cred =>
        { id := cred.credential_id
          transports := cred.transports.map (fun t => t.splitOn ",") }) }
  let entry : RegistrationChallenge :=
    { challenge := freshChallenge,
      user_id := user.id,
      expires_at := now + CHALLENGE_TTL }
  let newMap := mapSet RegistrationChallenge.challenge st.registrationChallenges entry
  ({ st with registrationChallenges := newMap }, options)

/-- `createAuthenticationOptions` (passkey.ts lines 203-218): records the
freshly minted challenge with `expires_at = Date.now() + CHALLENGE_TTL`. -/
def createAuthenticationOptions (st : ServerState) (now : Nat)
    (freshChallenge : String) : ServerState × String :=
  let entry : AuthenticationChallenge :=
    { challenge := freshChallenge,
      expires_at := now + CHALLENGE_TTL }
  let newMap := mapSet AuthenticationChallenge.challenge st.authenticationChallenges entry
  ({ st with authenticationChallenges := newMap }, freshChallenge)

/-- The row `verifyAndCreatePasskey` inserts (passkey.ts lines 156-173):
fresh UUID id, the caller's `userId`, the verified credential fields, the
response transports joined with commas (with JS `|| null`, so a joined
empty string becomes null), no name yet.  `created_at` is filled by the
table default at insert time (schema file not under src; the drizzle
schema defaults it to the insertion timestamp). -/
def regRow (now : Nat) (userId : Int) (response : RegistrationResponseJSON)
    (passkeyId : String) : PasskeyRow :=
  { id := passkeyId
    user_id := userId
    credential_id := response.credentialId
    public_key := response.publicKey
    counter := response.credCounter
    transports :=
      match response.transports with
      | none => none
      | some l =>
          if String.intercalate "," l = "" then none
          else some (String.intercalate "," l)
    name := none
    created_at := now
    last_used_at := none }

/-- `verifyAndCreatePasskey` (passkey.ts lines 114-198).  Returns the state
(the code also mutates on some failure paths) together with the thrown
error or the created `Passkey`.  `passkeyId` stands for the
`crypto.randomUUID()` value. -/
def verifyAndCreatePasskey (st : ServerState) (now : Nat) (userId : Int)
    (response : RegistrationResponseJSON) (expectedChallenge : String)
    (passkeyId : String) : ServerState × Except PasskeyError Passkey :=
  match mapGet RegistrationChallenge.challenge st.registrationChallenges
      expectedChallenge with
  | none => (st, .error .invalidOrExpiredChallenge)
  | some challengeData =>
    if challengeData.expires_at < now then
      let cleaned := mapDelete RegistrationChallenge.challenge
        st.registrationChallenges expectedChallenge
      ({ st with registrationChallenges := cleaned }, .error .challengeExpired)
    else if challengeData.user_id != 0 && challengeData.user_id != userId then
      (st, .error .userIdMismatch)
    else
      match verifyRegistrationResponse response with
      | none => (st, .error .registrationVerificationFailed)
      | some _ =>
        let cleaned := mapDelete RegistrationChallenge.challenge
          st.registrationChallenges expectedChallenge
        let st2 : ServerState :=
          { st with
            registrationChallenges := cleaned,
            passkeys := st.passkeys ++ [regRow now userId response passkeyId] }
        match st2.passkeys.find? (fun p => p.id == passkeyId) with
        | none => (st2, .error .failedToCreatePasskey)
        | some row => (st2, .ok (rowToPasskey row))

/-- The value `verifyAndAuthenticatePasskey` resolves with. -/
structure AuthSuccess where
  userId : Int
  passkeyId : String
deriving Repr, DecidableEq

/-- Outcome of the synchronous prefix of `verifyAndAuthenticatePasskey`. -/
inductive AuthPhaseA where
  | fail (st : ServerState) (e : PasskeyError)
  | proceed (passkey : PasskeyRow)
deriving Repr, DecidableEq

/-- The synchronous prefix of `verifyAndAuthenticatePasskey` (passkey.ts
lines 230-250), everything executed before the function's first `await`:
challenge lookup, expiry check (which deletes on expiry), and credential
lookup by `credential_id`.  Only the expiry branch mutates state. -/
def authPhaseA (st : ServerState) (now : Nat)
    (response : AuthenticationResponseJSON) (expectedChallenge : String) :
    AuthPhaseA :=
  match mapGet AuthenticationChallenge.challenge st.authenticationChallenges
      expectedChallenge with
  | none => .fail st .invalidOrExpiredChallenge
  | some challengeData =>
    if challengeData.expires_at < now then
      let cleaned := mapDelete AuthenticationChallenge.challenge
        st.authenticationChallenges expectedChallenge
      .fail { st with authenticationChallenges := cleaned } .challengeExpired
    else
      match st.passkeys.find? (fun p => p.credential_id == response.id) with
      | none => .fail st .passkeyNotFound
      | some passkey => .proceed passkey

/-- The continuation of `verifyAndAuthenticatePasskey` after the awaited
library verification (passkey.ts lines 252-287): on success delete the
challenge, set the row's counter to the reported `newCounter` and
`last_used_at` to now, and return the owning user. -/
def authPhaseB (st : ServerState) (now : Nat)
    (response : AuthenticationResponseJSON) (expectedChallenge : String)
    (passkey : PasskeyRow) : ServerState × Except PasskeyError AuthSuccess :=
  match verifyAuthenticationResponse response passkey.counter with
  | .error e => (st, .error e)
  | .ok newCounter =>
    let cleaned := mapDelete AuthenticationChallenge.challenge
      st.authenticationChallenges expectedChallenge
    let updated := st.passkeys.map (fun p =>
      if p.id == passkey.id then
        { p with counter := newCounter, last_used_at := some now }
      else p)
    ({ st with authenticationChallenges := cleaned, passkeys := updated },
     .ok { userId := passkey.user_id, passkeyId := passkey.id })

/-- `verifyAndAuthenticatePasskey` (passkey.ts lines 223-287) as the
sequential composition of the two phases (the split point is the `await`
of the library verification, the only suspension point). -/
def verifyAndAuthenticatePasskey (st : ServerState) (now : Nat)
    (response : AuthenticationResponseJSON) (expectedChallenge : String) :
    ServerState × Except PasskeyError AuthSuccess :=
  match authPhaseA st now response expectedChallenge with
  | .fail st1 e => (st1, .error e)
  | .proceed passkey => authPhaseB st now response expectedChallenge passkey

/-- `deletePasskey` (passkey.ts lines 317-321): deletes by `id` only; the
`userId` parameter is accepted and ignored.  Returns `changes > 0`. -/
def deletePasskey (st : ServerState) (passkeyId : String) (userId : Int) :
    ServerState × Bool :=
  let remaining := st.passkeys.filter (fun p => !(p.id == passkeyId))
  ({ st with passkeys := remaining },
   decide (remaining.length < st.passkeys.length))

/-- `updatePasskeyName` (passkey.ts lines 326-338): renames by `id` only;
the `userId` parameter is accepted and ignored.  Returns `changes > 0`. -/
def updatePasskeyName (st : ServerState) (passkeyId : String) (userId : Int)
    (name : String) : ServerState × Bool :=
  ({ st with passkeys := st.passkeys.map (fun p =>
      if p.id == passkeyId then { p with name := some name } else p) },
   decide (0 < st.passkeys.countP (fun p => p.id == passkeyId)))

/-- Body the route handlers send when the ceremony throws:
`JSON.stringify(\x7b error: error.message \x7d)` (index.ts). -/
def clientErrorBody (e : PasskeyError) : String :=
  "\x7b\"error\":\"" ++ e.message ++ "\"\x7d"

/-- The catch branch of the `/api/auth/passkey/authenticate/verify` POST
handler (index.ts lines 234-276): a ceremony error is surfaced to the
client as status 500 with the error's message in the JSON body.  `none`
when the ceremony succeeds (the success branch issues a session and is
outside the ceremony core). -/
def authenticateVerifyHandlerError (st : ServerState) (now : Nat)
    (response : AuthenticationResponseJSON) (challenge : String) :
    Option (Nat × String) :=
  match verifyAndAuthenticatePasskey st now response challenge with
  | (_, .error e) => some (500, clientErrorBody e)
  | (_, .ok _) => none

/-- The catch branch of the `/api/auth/register` POST handler (index.ts
lines 100-146) around its `verifyAndCreatePasskey` call: a ceremony error
is surfaced as status 500 with the error's message in the JSON body. -/
def registerHandlerError (st : ServerState) (now : Nat) (userId : Int)
    (response : RegistrationResponseJSON) (challenge : String)
    (passkeyId : String) : Option (Nat × String) :=
  match verifyAndCreatePasskey st now userId response challenge passkeyId with
  | (_, .error e) => some (500, clientErrorBody e)
  | (_, .ok _) => none

/-! Concrete sample data used by witnesses and counterexamples. -/

/-- A stored credential: id "pk1" owned by user 7, counter 3. -/
def samplePk : PasskeyRow :=
  { id := "pk1", user_id := 7, credential_id := "cred1", public_key := "pub1",
    counter := 3, transports := none, name := none, created_at := 1000,
    last_used_at := none }

/-- A pending authentication challenge "ch" expiring at t = 400000 ms. -/
def sampleAuthChallenge : AuthenticationChallenge :=
  { challenge := "ch", expires_at := 400000 }

/-- A pending registration challenge "rc" for user 7, expiring at 400000. -/
def sampleRegChallenge : RegistrationChallenge :=
  { challenge := "rc", user_id := 7, expires_at := 400000 }

/-- State holding the authentication challenge and the stored credential. -/
def sampleState : ServerState :=
  { registrationChallenges := [],
    authenticationChallenges := [sampleAuthChallenge],
    passkeys := [samplePk] }

/-- State holding only the registration challenge. -/
def regState : ServerState :=
  { registrationChallenges := [sampleRegChallenge],
    authenticationChallenges := [],
    passkeys := [] }

/-- State holding the authentication challenge but no credentials. -/
def lonelyState : ServerState :=
  { registrationChallenges := [],
    authenticationChallenges := [sampleAuthChallenge],
    passkeys := [] }

/-- The empty server state. -/
def emptyState : ServerState :=
  { registrationChallenges := [], authenticationChallenges := [],
    passkeys := [] }

/-- State with both pending challenges and no credentials yet. -/
def bothState : ServerState :=
  { registrationChallenges := [sampleRegChallenge],
    authenticationChallenges := [sampleAuthChallenge],
    passkeys := [] }

/-- User alice with id 7. -/
def user7 : User := { id := 7, username := "alice", name := none }

/-- A registration response whose attestation fails verification. -/
def badRegResponse : RegistrationResponseJSON :=
  { credentialId := "credX", publicKey := "pubX", credCounter := 0,
    transports := none, cryptoValid := false }

/-- A registration response that verifies, for credential "cred9". -/
def goodRegResponse : RegistrationResponseJSON :=
  { credentialId := "cred9", publicKey := "pub9", credCounter := 0,
    transports := none, cryptoValid := true }

/-- A valid assertion for "cred1" reporting counter 4 (stored counter 3). -/
def goodAuthResponse : AuthenticationResponseJSON :=
  { id := "cred1", newCounter := 4, cryptoValid := true }

/-- A valid assertion for "cred1" reporting counter 3, equal to the stored
counter. -/
def cloneResp : AuthenticationResponseJSON :=
  { id := "cred1", newCounter := 3, cryptoValid := true }

/-- A valid assertion for "cred1" reporting counter 8 = 3 + 5. -/
def plus5Resp : AuthenticationResponseJSON :=
  { id := "cred1", newCounter := 8, cryptoValid := true }

/-- A valid assertion for "cred9" reporting counter 1. -/
def authResp9 : AuthenticationResponseJSON :=
  { id := "cred9", newCounter := 1, cryptoValid := true }

/-- An assertion whose credential id matches no stored credential. -/
def unknownResp : AuthenticationResponseJSON :=
  { id := "nosuch", newCounter := 1, cryptoValid := true }

/-! Helper lemmas about the JS-map model. -/

theorem mapGet_set_self (key : α → String) (s : List α) (e : α) :
    mapGet key (mapSet key s e) (key e) = some e := by
  induction s with
  | nil => simp [mapGet, mapSet]
  | cons hd tl ih =>
    by_cases h : (key hd == key e) = true
    · simp [mapGet, mapSet, h]
    · simp only [mapSet, h, Bool.false_eq_true, if_false]
      simp only [mapGet] at ih ⊢
      rw [List.find?_cons_of_neg (p := fun x => key x == key e) _ h]
      exact ih

theorem mapGet_delete_self (key : α → String) (s : List α) (c : String) :
    mapGet key (mapDelete key s c) c = none := by
  induction s with
  | nil => simp [mapGet, mapDelete]
  | cons hd tl ih =>
    by_cases h : (key hd == c) = true
    · simp only [mapDelete, List.filter_cons, h, Bool.not_true, if_false,
        Bool.false_eq_true]
      exact ih
    · simp only [mapDelete, List.filter_cons, h, Bool.not_false, if_true]
      simp only [mapGet] at ih ⊢
      rw [List.find?_cons_of_neg (p := fun x => key x == c) _ (by simp [h])]
      exact ih

/-- Success of `verifyAndCreatePasskey` pins down the resulting state: the
attestation was accepted, the registration challenge was deleted, the
authentication-challenge map is untouched, and exactly the one new row was
appended. -/
theorem verifyAndCreatePasskey_ok (st : ServerState) (now : Nat) (userId : Int)
    (response : RegistrationResponseJSON) (c pid : String)
    (st1 : ServerState) (pk : Passkey)
    (h : verifyAndCreatePasskey st now userId response c pid = (st1, .ok pk)) :
    response.cryptoValid = true ∧
    st1.registrationChallenges =
      mapDelete RegistrationChallenge.challenge st.registrationChallenges c ∧
    st1.authenticationChallenges = st.authenticationChallenges ∧
    st1.passkeys = st.passkeys ++ [regRow now userId response pid] := by
  unfold verifyAndCreatePasskey at h
  split at h
  · simp at h
  · rename_i challengeData heq
    split at h
    · simp at h
    · split at h
      · simp at h
      · rename_i hverif
        split at h
        · simp at h
        · rename_i info hinfo
          dsimp only at h
          split at h
          · simp at h
          · rename_i row hrow
            simp only [Prod.mk.injEq, Except.ok.injEq] at h
            obtain ⟨hst, _⟩ := h
            subst hst
            refine ⟨?_, rfl, rfl, rfl⟩
            unfold verifyRegistrationResponse at hinfo
            by_cases hcv : response.cryptoValid = true
            · exact hcv
            · simp [hcv] at hinfo

/-- Success of `verifyAndAuthenticatePasskey` pins down the challenge maps:
the redeemed authentication challenge was deleted and the
registration-challenge map is untouched. -/
theorem verifyAndAuthenticatePasskey_ok (st : ServerState) (now : Nat)
    (response : AuthenticationResponseJSON) (c : String)
    (st1 : ServerState) (r : AuthSuccess)
    (h : verifyAndAuthenticatePasskey st now response c = (st1, .ok r)) :
    st1.authenticationChallenges =
      mapDelete AuthenticationChallenge.challenge st.authenticationChallenges c ∧
    st1.registrationChallenges = st.registrationChallenges := by
  unfold verifyAndAuthenticatePasskey at h
  split at h
  · rename_i st2 e heq
    simp at h
  · rename_i passkey heq
    unfold authPhaseB at h
    split at h
    · simp at h
    · simp only [Prod.mk.injEq, Except.ok.injEq] at h
      obtain ⟨hst, _⟩ := h
      subst hst
      exact ⟨rfl, rfl⟩

/-! Claim theorems. -/

/-- C1, counterexample: a registration attempt that redeems the challenge
(the lookup succeeds, the challenge is valid, the subject matches) but then
fails attestation verification does NOT consume the challenge: a second
call with the same challenge value fails with the same verification error,
not with a ChallengeInvalid-class error.  This refutes the claim that after
step 1 succeeds a second call always fails with `ChallengeInvalid`. -/
theorem claim_C1_counterexample :
    verifyAndCreatePasskey regState 0 7 badRegResponse "rc" "id1" =
      (regState, .error .registrationVerificationFailed) ∧
    (verifyAndCreatePasskey
        (verifyAndCreatePasskey regState 0 7 badRegResponse "rc" "id1").1
        0 7 badRegResponse "rc" "id2").2 =
      .error .registrationVerificationFailed ∧
    PasskeyError.registrationVerificationFailed.taxonomy ≠
      Taxonomy.ChallengeInvalid := by
  decide

/-- C1 (amended): the ceremony code consumes a challenge only when the
completion attempt succeeds (or on the expiry check); after a successful
`completeRegistration` or `completeAuthentication`, a second call with the
same challenge value fails with the ChallengeInvalid-class error
"Invalid or expired challenge".  An attempt that fails after the challenge
lookup (verification failure, subject mismatch, unknown credential) leaves
the challenge valid, as the counterexample shows. -/
theorem claim_C1 :
    (∀ st now uid resp c nid now2 uid2 resp2 nid2,
      (verifyAndCreatePasskey st now uid resp c nid).2.isOk = true →
      (verifyAndCreatePasskey (verifyAndCreatePasskey st now uid resp c nid).1
          now2 uid2 resp2 c nid2).2 =
        .error .invalidOrExpiredChallenge) ∧
    (∀ st now resp c now2 resp2,
      (verifyAndAuthenticatePasskey st now resp c).2.isOk = true →
      (verifyAndAuthenticatePasskey (verifyAndAuthenticatePasskey st now resp c).1
          now2 resp2 c).2 =
        .error .invalidOrExpiredChallenge) ∧
    PasskeyError.invalidOrExpiredChallenge.taxonomy = Taxonomy.ChallengeInvalid := by
  refine ⟨?_, ?_, rfl⟩
  · intro st now uid resp c nid now2 uid2 resp2 nid2 h
    cases hok : (verifyAndCreatePasskey st now uid resp c nid).2 with
    | error e => rw [hok] at h; simp [Except.isOk, Except.toBool] at h
    | ok pk =>
      have hfull : verifyAndCreatePasskey st now uid resp c nid =
          ((verifyAndCreatePasskey st now uid resp c nid).1, .ok pk) := by
        rw [← hok]
      obtain ⟨-, hreg, -, -⟩ :=
        verifyAndCreatePasskey_ok _ _ _ _ _ _ _ _ hfull
      have hnone : mapGet RegistrationChallenge.challenge
          ((verifyAndCreatePasskey st now uid resp c nid).1).registrationChallenges
          c = none := by
        rw [hreg]; exact mapGet_delete_self _ _ _
      set st1 := (verifyAndCreatePasskey st now uid resp c nid).1 with hst1
      simp only [verifyAndCreatePasskey]
      rw [hnone]
  · intro st now resp c now2 resp2 h
    cases hok : (verifyAndAuthenticatePasskey st now resp c).2 with
    | error e => rw [hok] at h; simp [Except.isOk, Except.toBool] at h
    | ok r =>
      have hfull : verifyAndAuthenticatePasskey st now resp c =
          ((verifyAndAuthenticatePasskey st now resp c).1, .ok r) := by
        rw [← hok]
      obtain ⟨hauth, -⟩ := verifyAndAuthenticatePasskey_ok _ _ _ _ _ _ hfull
      have hnone : mapGet AuthenticationChallenge.challenge
          ((verifyAndAuthenticatePasskey st now resp c).1).authenticationChallenges
          c = none := by
        rw [hauth]; exact mapGet_delete_self _ _ _
      set st1 := (verifyAndAuthenticatePasskey st now resp c).1 with hst1
      simp only [verifyAndAuthenticatePasskey, authPhaseA]
      rw [hnone]

/-- C1, witness: a concrete successful registration and a concrete
successful authentication, each followed by a replay of the same challenge
value failing with "Invalid or expired challenge". -/
theorem claim_C1_witness :
    (verifyAndCreatePasskey (verifyAndCreatePasskey regState 0 7
        goodRegResponse "rc" "id1").1 0 7 goodRegResponse "rc" "id2").2 =
      .error .invalidOrExpiredChallenge ∧
    (verifyAndAuthenticatePasskey (verifyAndAuthenticatePasskey sampleState 0
        goodAuthResponse "ch").1 0 goodAuthResponse "ch").2 =
      .error .invalidOrExpiredChallenge :=
  ⟨claim_C1.1 regState 0 7 goodRegResponse "rc" "id1" 0 7 goodRegResponse "id2"
      (by decide),
   claim_C1.2.1 sampleState 0 goodAuthResponse "ch" 0 goodAuthResponse
      (by decide)⟩

/-- C3, counterexample: an authentication response whose credential id
matches no stored credential fails with "Passkey not found", but the
challenge is NOT consumed — it is still in the store afterwards, and a
retry with the same challenge value again fails with "Passkey not found"
(a CredentialNotFound-class error), not with a ChallengeInvalid-class
error.  This refutes the claim that the challenge is consumed. -/
theorem claim_C3_counterexample :
    verifyAndAuthenticatePasskey lonelyState 0 unknownResp "ch" =
      (lonelyState, .error .passkeyNotFound) ∧
    mapGet AuthenticationChallenge.challenge
      ((verifyAndAuthenticatePasskey lonelyState 0 unknownResp "ch").1).authenticationChallenges
      "ch" = some sampleAuthChallenge ∧
    (verifyAndAuthenticatePasskey
        (verifyAndAuthenticatePasskey lonelyState 0 unknownResp "ch").1
        0 unknownResp "ch").2 = .error .passkeyNotFound ∧
    PasskeyError.passkeyNotFound.taxonomy ≠ Taxonomy.ChallengeInvalid := by
  decide

/-- C3 (amended): an authentication response whose credential id matches no
stored credential fails with the CredentialNotFound-class error
"Passkey not found", and the state is returned unchanged: the redeemed
challenge is NOT consumed, so a retry with the same challenge value is not
rejected as ChallengeInvalid (it fails the same way). -/
theorem claim_C3 (st : ServerState) (now : Nat)
    (resp : AuthenticationResponseJSON) (c : String)
    (cd : AuthenticationChallenge)
    (hc : mapGet AuthenticationChallenge.challenge st.authenticationChallenges c
      = some cd)
    (hexp : ¬ cd.expires_at < now)
    (hpk : st.passkeys.find? (fun p => p.credential_id == resp.id) = none) :
    verifyAndAuthenticatePasskey st now resp c = (st, .error .passkeyNotFound) ∧
    PasskeyError.passkeyNotFound.taxonomy = Taxonomy.CredentialNotFound := by
  refine ⟨?_, rfl⟩
  simp only [verifyAndAuthenticatePasskey, authPhaseA]
  rw [hc]
  simp only [hexp, if_false]
  rw [hpk]

/-- C3, witness: the concrete unknown-credential run of the amended claim. -/
theorem claim_C3_witness :
    verifyAndAuthenticatePasskey lonelyState 0 unknownResp "ch" =
      (lonelyState, .error .passkeyNotFound) ∧
    PasskeyError.passkeyNotFound.taxonomy = Taxonomy.CredentialNotFound :=
  claim_C3 lonelyState 0 unknownResp "ch" sampleAuthChallenge (by decide)
    (by decide) (by decide)

/-- C4, counterexample: redemption is NOT atomic under concurrent calls.
The code between the challenge lookup and the challenge deletion contains
an await (the library verification), so two calls can interleave there:
both run the synchronous prefix `authPhaseA` against the same initial
state (both observe the challenge as present), then both run the
continuation `authPhaseB`, and both succeed — two redemptions of the same
challenge value both pass.  This refutes the at-most-once claim. -/
theorem claim_C4_counterexample :
    authPhaseA sampleState 0 goodAuthResponse "ch" = .proceed samplePk ∧
    (authPhaseB sampleState 0 goodAuthResponse "ch" samplePk).2 =
      .ok { userId := 7, passkeyId := "pk1" } ∧
    (authPhaseB (authPhaseB sampleState 0 goodAuthResponse "ch" samplePk).1
        0 goodAuthResponse "ch" samplePk).2 =
      .ok { userId := 7, passkeyId := "pk1" } := by
  decide

/-- C4 (amended): at-most-once redemption holds only for attempts that do
not interleave across the verification await: when one completion call runs
to completion before the other starts, the second call observes the
challenge as absent and fails with "Invalid or expired challenge".  With
interleaving at the await point both attempts can succeed, as the
counterexample shows (the code has no lock or atomic compare-and-delete). -/
theorem claim_C4 (st : ServerState) (now now2 : Nat)
    (r1 r2 : AuthenticationResponseJSON) (c : String)
    (h : (verifyAndAuthenticatePasskey st now r1 c).2.isOk = true) :
    (verifyAndAuthenticatePasskey (verifyAndAuthenticatePasskey st now r1 c).1
        now2 r2 c).2 = .error .invalidOrExpiredChallenge ∧
    PasskeyError.invalidOrExpiredChallenge.taxonomy = Taxonomy.ChallengeInvalid := by
  refine ⟨?_, rfl⟩
  cases hok : (verifyAndAuthenticatePasskey st now r1 c).2 with
  | error e => rw [hok] at h; simp [Except.isOk, Except.toBool] at h
  | ok r =>
    have hfull : verifyAndAuthenticatePasskey st now r1 c =
        ((verifyAndAuthenticatePasskey st now r1 c).1, .ok r) := by
      rw [← hok]
    obtain ⟨hauth, -⟩ := verifyAndAuthenticatePasskey_ok _ _ _ _ _ _ hfull
    have hnone : mapGet AuthenticationChallenge.challenge
        ((verifyAndAuthenticatePasskey st now r1 c).1).authenticationChallenges
        c = none := by
      rw [hauth]; exact mapGet_delete_self _ _ _
    set st1 := (verifyAndAuthenticatePasskey st now r1 c).1 with hst1
    simp only [verifyAndAuthenticatePasskey, authPhaseA]
    rw [hnone]

/-- C4, witness: a concrete successful redemption followed sequentially by
a duplicate submission that fails with "Invalid or expired challenge". -/
theorem claim_C4_witness :
    (verifyAndAuthenticatePasskey
        (verifyAndAuthenticatePasskey sampleState 1 goodAuthResponse "ch").1
        2 goodAuthResponse "ch").2 = .error .invalidOrExpiredChallenge ∧
    PasskeyError.invalidOrExpiredChallenge.taxonomy = Taxonomy.ChallengeInvalid :=
  claim_C4 sampleState 1 2 goodAuthResponse goodAuthResponse "ch" (by decide)

/-- C5, counterexample: two runs of the authenticate-verify handler that
fail at different ceremony steps (challenge lookup vs credential lookup)
produce client-visible bodies that differ — the handler puts the internal
step-specific error message into the response body, so the failing step is
distinguishable by the client.  This refutes the claim that the
client-facing error content is indistinguishable across failing steps. -/
theorem claim_C5_counterexample :
    authenticateVerifyHandlerError emptyState 0 unknownResp "ch" =
      some (500, clientErrorBody .invalidOrExpiredChallenge) ∧
    authenticateVerifyHandlerError lonelyState 0 unknownResp "ch" =
      some (500, clientErrorBody .passkeyNotFound) ∧
    clientErrorBody .invalidOrExpiredChallenge ≠
      clientErrorBody .passkeyNotFound := by
  decide

/-- C5 (amended): every ceremony-level error is recovered at the request
boundary and surfaced with the same HTTP status 500, but the JSON body
embeds the internal error message of the failing step
(`JSON.stringify` of an object with the message), so runs failing at
different steps produce distinguishable client-visible bodies; only the
status code is uniform. -/
theorem claim_C5 :
    (∀ st now resp c e,
      (verifyAndAuthenticatePasskey st now resp c).2 = .error e →
      authenticateVerifyHandlerError st now resp c =
        some (500, clientErrorBody e)) ∧
    (∀ st now uid resp c nid e,
      (verifyAndCreatePasskey st now uid resp c nid).2 = .error e →
      registerHandlerError st now uid resp c nid =
        some (500, clientErrorBody e)) ∧
    clientErrorBody .invalidOrExpiredChallenge ≠
      clientErrorBody .passkeyNotFound := by
  refine ⟨?_, ?_, by decide⟩
  · intro st now resp c e h
    have hfull : verifyAndAuthenticatePasskey st now resp c =
        ((verifyAndAuthenticatePasskey st now resp c).1, .error e) := by
      rw [← h]
    simp only [authenticateVerifyHandlerError]
    rw [hfull]
  · intro st now uid resp c nid e h
    have hfull : verifyAndCreatePasskey st now uid resp c nid =
        ((verifyAndCreatePasskey st now uid resp c nid).1, .error e) := by
      rw [← h]
    simp only [registerHandlerError]
    rw [hfull]

/-- C5, witness: concrete failing runs of both handlers surfaced as status
500 with the step-specific message in the body. -/
theorem claim_C5_witness :
    authenticateVerifyHandlerError lonelyState 0 unknownResp "ch" =
      some (500, clientErrorBody .passkeyNotFound) ∧
    registerHandlerError regState 0 7 badRegResponse "rc" "id1" =
      some (500, clientErrorBody .registrationVerificationFailed) :=
  ⟨claim_C5.1 lonelyState 0 unknownResp "ch" .passkeyNotFound (by decide),
   claim_C5.2.1 regState 0 7 badRegResponse "rc" "id1"
     .registrationVerificationFailed (by decide)⟩

/-- C10: `deletePasskey` and `updatePasskeyName` ignore their `userId`
argument entirely — the result is identical for any two caller user ids —
and a stored passkey whose owner differs from the caller is deleted all the
same (the delete reports success and no row with the target id remains). -/
theorem claim_C10 :
    (∀ st pid u1 u2, deletePasskey st pid u1 = deletePasskey st pid u2) ∧
    (∀ st pid u1 u2 n,
      updatePasskeyName st pid u1 n = updatePasskeyName st pid u2 n) ∧
    (∀ st pid uid r, r ∈ st.passkeys → r.id = pid → r.user_id ≠ uid →
      (deletePasskey st pid uid).2 = true ∧
      ∀ q ∈ (deletePasskey st pid uid).1.passkeys, q.id ≠ pid) := by
  refine ⟨fun st pid u1 u2 => rfl, fun st pid u1 u2 n => rfl, ?_⟩
  intro st pid uid r hmem hid hneq
  constructor
  · simp only [deletePasskey, decide_eq_true_eq]
    refine List.length_filter_lt_length_iff_exists.mpr ⟨r, hmem, ?_⟩
    simp [hid]
  · intro q hq
    simp only [deletePasskey, List.mem_filter] at hq
    intro habs
    have := hq.2
    simp [habs] at this

/-- C10, witness: user 99 deletes user 7's passkey "pk1"; the call reports
success and the row is gone. -/
theorem claim_C10_witness :
    (deletePasskey sampleState "pk1" 99).2 = true ∧
    ∀ q ∈ (deletePasskey sampleState "pk1" 99).1.passkeys, q.id ≠ "pk1" :=
  claim_C10.2.2 sampleState "pk1" 99 samplePk (by decide) (by decide) (by decide)

/-- C2: with a valid pending challenge and a stored credential with counter
C > 0, an otherwise-valid authentication response reporting new counter
equal to C (not strictly greater) fails with PossibleCloneDetected, and the
whole state is returned unchanged — in particular the stored counter for
that credential remains C. -/
theorem claim_C2 (st : ServerState) (now : Nat)
    (resp : AuthenticationResponseJSON) (c : String)
    (cd : AuthenticationChallenge) (pk : PasskeyRow)
    (hc : mapGet AuthenticationChallenge.challenge st.authenticationChallenges c
      = some cd)
    (hexp : ¬ cd.expires_at < now)
    (hpk : st.passkeys.find? (fun p => p.credential_id == resp.id) = some pk)
    (hcrypto : resp.cryptoValid = true)
    (hcnt : resp.newCounter = pk.counter)
    (hpos : 0 < pk.counter) :
    verifyAndAuthenticatePasskey st now resp c =
      (st, .error .possibleCloneDetected) ∧
    PasskeyError.possibleCloneDetected.taxonomy =
      Taxonomy.PossibleCloneDetected := by
  refine ⟨?_, rfl⟩
  have hv : verifyAuthenticationResponse resp pk.counter =
      .error .possibleCloneDetected := by
    simp [verifyAuthenticationResponse, hcrypto, hcnt,
      Nat.pos_iff_ne_zero.mp hpos]
  simp only [verifyAndAuthenticatePasskey, authPhaseA]
  rw [hc]
  simp only [hexp, if_false]
  rw [hpk]
  simp only [authPhaseB]
  rw [hv]

/-- C2, witness: the stored counter is 3 and the response reports 3; the
ceremony fails with PossibleCloneDetected and the state is unchanged. -/
theorem claim_C2_witness :
    verifyAndAuthenticatePasskey sampleState 0 cloneResp "ch" =
      (sampleState, .error .possibleCloneDetected) ∧
    PasskeyError.possibleCloneDetected.taxonomy =
      Taxonomy.PossibleCloneDetected :=
  claim_C2 sampleState 0 cloneResp "ch" sampleAuthChallenge samplePk
    (by decide) (by decide) (by decide) (by decide) (by decide) (by decide)

/-- C6: with a valid pending challenge and a stored credential with counter
C, a valid authentication response reporting counter C + 5 succeeds: the
challenge is deleted, the stored row's counter becomes exactly C + 5 (the
authenticator-reported value, not an increment by one), its last_used_at is
set to the current time, and the owning user and passkey ids are returned;
moreover every stored row with that passkey id now carries counter C + 5
and the updated last_used_at. -/
theorem claim_C6 (st : ServerState) (now : Nat)
    (resp : AuthenticationResponseJSON) (c : String)
    (cd : AuthenticationChallenge) (pk : PasskeyRow)
    (hc : mapGet AuthenticationChallenge.challenge st.authenticationChallenges c
      = some cd)
    (hexp : ¬ cd.expires_at < now)
    (hpk : st.passkeys.find? (fun p => p.credential_id == resp.id) = some pk)
    (hcrypto : resp.cryptoValid = true)
    (hcnt : resp.newCounter = pk.counter + 5) :
    verifyAndAuthenticatePasskey st now resp c =
      ({ st with
          authenticationChallenges :=
            mapDelete AuthenticationChallenge.challenge
              st.authenticationChallenges c,
          passkeys := st.passkeys.map (fun p =>
            if p.id == pk.id then
              { p with counter := pk.counter + 5, last_used_at := some now }
            else p) },
       .ok { userId := pk.user_id, passkeyId := pk.id }) ∧
    ∀ q ∈ (verifyAndAuthenticatePasskey st now resp c).1.passkeys,
      q.id = pk.id → q.counter = pk.counter + 5 ∧ q.last_used_at = some now := by
  have hle : ¬ (pk.counter + 5 ≤ pk.counter) := by omega
  have hv : verifyAuthenticationResponse resp pk.counter =
      .ok (pk.counter + 5) := by
    simp [verifyAuthenticationResponse, hcrypto, hcnt, hle]
  have hmain : verifyAndAuthenticatePasskey st now resp c =
      ({ st with
          authenticationChallenges :=
            mapDelete AuthenticationChallenge.challenge
              st.authenticationChallenges c,
          passkeys := st.passkeys.map (fun p =>
            if p.id == pk.id then
              { p with counter := pk.counter + 5, last_used_at := some now }
            else p) },
       .ok { userId := pk.user_id, passkeyId := pk.id }) := by
    simp only [verifyAndAuthenticatePasskey, authPhaseA]
    rw [hc]
    simp only [hexp, if_false]
    rw [hpk]
    simp only [authPhaseB]
    rw [hv]
  refine ⟨hmain, ?_⟩
  rw [hmain]
  intro q hq hqid
  simp only [List.mem_map] at hq
  obtain ⟨p, hp, hfp⟩ := hq
  by_cases hpid : (p.id == pk.id) = true
  · rw [if_pos hpid] at hfp
    rw [← hfp]
    exact ⟨rfl, rfl⟩
  · rw [if_neg hpid] at hfp
    exfalso
    apply hpid
    rw [hfp, hqid]
    exact beq_self_eq_true pk.id

/-- C6, witness: stored counter 3, response reports 8 = 3 + 5;
authentication succeeds, the stored counter becomes exactly 8, and
last_used_at is set. -/
theorem claim_C6_witness :
    verifyAndAuthenticatePasskey sampleState 9 plus5Resp "ch" =
      ({ sampleState with
          authenticationChallenges :=
            mapDelete AuthenticationChallenge.challenge
              sampleState.authenticationChallenges "ch",
          passkeys := sampleState.passkeys.map (fun p =>
            if p.id == samplePk.id then
              { p with counter := samplePk.counter + 5,
                       last_used_at := some 9 }
            else p) },
       .ok { userId := samplePk.user_id, passkeyId := samplePk.id }) ∧
    ∀ q ∈ (verifyAndAuthenticatePasskey sampleState 9 plus5Resp "ch").1.passkeys,
      q.id = samplePk.id →
      q.counter = samplePk.counter + 5 ∧ q.last_used_at = some 9 :=
  claim_C6 sampleState 9 plus5Resp "ch" sampleAuthChallenge samplePk
    (by decide) (by decide) (by decide) (by decide) (by decide)

/-- C7: issuing options records the challenge with expiry
`issuedAt + CHALLENGE_TTL` where `CHALLENGE_TTL` is the fixed constant
5 * 60 * 1000 ms (5 minutes), and redemption attempted at
`issuedAt + CHALLENGE_TTL + eps` for any eps ≥ 1 ms fails with the
ChallengeInvalid-class error "Challenge expired" regardless of the
response — for both the authentication and the registration ceremony. -/
theorem claim_C7 (st : ServerState) (t0 eps : Nat) (fresh : String)
    (resp : AuthenticationResponseJSON) (user : User)
    (regResp : RegistrationResponseJSON) (uid : Int) (nid : String)
    (heps : 1 ≤ eps) :
    CHALLENGE_TTL = 5 * 60 * 1000 ∧
    mapGet AuthenticationChallenge.challenge
      ((createAuthenticationOptions st t0 fresh).1).authenticationChallenges
      fresh = some { challenge := fresh, expires_at := t0 + CHALLENGE_TTL } ∧
    (verifyAndAuthenticatePasskey (createAuthenticationOptions st t0 fresh).1
        (t0 + CHALLENGE_TTL + eps) resp fresh).2 = .error .challengeExpired ∧
    mapGet RegistrationChallenge.challenge
      ((createRegistrationOptions st t0 user fresh).1).registrationChallenges
      fresh = some { challenge := fresh, user_id := user.id,
                     expires_at := t0 + CHALLENGE_TTL } ∧
    (verifyAndCreatePasskey (createRegistrationOptions st t0 user fresh).1
        (t0 + CHALLENGE_TTL + eps) uid regResp fresh nid).2 =
      .error .challengeExpired ∧
    PasskeyError.challengeExpired.taxonomy = Taxonomy.ChallengeInvalid := by
  have hlt : t0 + CHALLENGE_TTL < t0 + CHALLENGE_TTL + eps := by omega
  have hauth : mapGet AuthenticationChallenge.challenge
      ((createAuthenticationOptions st t0 fresh).1).authenticationChallenges
      fresh = some { challenge := fresh, expires_at := t0 + CHALLENGE_TTL } := by
    simp only [createAuthenticationOptions]
    exact mapGet_set_self AuthenticationChallenge.challenge
      st.authenticationChallenges _
  have hreg : mapGet RegistrationChallenge.challenge
      ((createRegistrationOptions st t0 user fresh).1).registrationChallenges
      fresh = some { challenge := fresh, user_id := user.id,
                     expires_at := t0 + CHALLENGE_TTL } := by
    simp only [createRegistrationOptions]
    exact mapGet_set_self RegistrationChallenge.challenge
      st.registrationChallenges _
  refine ⟨rfl, hauth, ?_, hreg, ?_, rfl⟩
  · simp only [verifyAndAuthenticatePasskey, authPhaseA]
    rw [hauth]
    simp only [hlt, if_true]
  · simp only [verifyAndCreatePasskey]
    rw [hreg]
    simp only [hlt, if_true]

/-- C7, witness: a concrete issuance at t = 0 followed by a redemption
attempt at exactly TTL + 1 ms, failing with "Challenge expired". -/
theorem claim_C7_witness :
    CHALLENGE_TTL = 5 * 60 * 1000 ∧
    (verifyAndAuthenticatePasskey (createAuthenticationOptions emptyState 0 "f").1
        (0 + CHALLENGE_TTL + 1) unknownResp "f").2 = .error .challengeExpired ∧
    PasskeyError.challengeExpired.taxonomy = Taxonomy.ChallengeInvalid := by
  have h := claim_C7 emptyState 0 1 "f" unknownResp user7 badRegResponse 7 "id1"
    (by decide)
  exact ⟨h.1, h.2.2.1, h.2.2.2.2.2⟩

/-- C8: the exclude-list in the registration options equals exactly the
requesting user's currently stored credential ids — empty when the user
has none, and containing a credential's id right after that credential is
successfully registered to the user. -/
theorem claim_C8 (st : ServerState) (now : Nat) (user : User) (fresh : String) :
    ((createRegistrationOptions st now user fresh).2.excludeCredentials.map
        ExcludeCredential.id) =
      (st.passkeys.filter (fun p => p.user_id == user.id)).map
        PasskeyRow.credential_id ∧
    (st.passkeys.filter (fun p => p.user_id == user.id) = [] →
      (createRegistrationOptions st now user fresh).2.excludeCredentials = []) ∧
    (∀ now0 resp c nid,
      (verifyAndCreatePasskey st now0 user.id resp c nid).2.isOk = true →
      resp.credentialId ∈
        ((createRegistrationOptions
            (verifyAndCreatePasskey st now0 user.id resp c nid).1
            now user fresh).2.excludeCredentials.map ExcludeCredential.id)) := by
  refine ⟨?_, ?_, ?_⟩
  · simp [createRegistrationOptions, getPasskeysForUser, List.map_map,
      Function.comp, rowToPasskey]
  · intro h
    simp [createRegistrationOptions, getPasskeysForUser, h]
  · intro now0 resp c nid h
    cases hok : (verifyAndCreatePasskey st now0 user.id resp c nid).2 with
    | error e => rw [hok] at h; simp [Except.isOk, Except.toBool] at h
    | ok pk =>
      have hfull : verifyAndCreatePasskey st now0 user.id resp c nid =
          ((verifyAndCreatePasskey st now0 user.id resp c nid).1, .ok pk) := by
        rw [← hok]
      obtain ⟨-, -, -, hpass⟩ :=
        verifyAndCreatePasskey_ok _ _ _ _ _ _ _ _ hfull
      simp only [createRegistrationOptions, getPasskeysForUser]
      rw [hpass, List.filter_append]
      simp [regRow, rowToPasskey]

/-- C8, witness: user alice with no credentials gets an empty exclude-list;
after registering credential "cred9" for alice, the options list "cred9"
in the exclude-list. -/
theorem claim_C8_witness :
    (createRegistrationOptions bothState 0 user7 "f").2.excludeCredentials = [] ∧
    goodRegResponse.credentialId ∈
      ((createRegistrationOptions
          (verifyAndCreatePasskey bothState 0 user7.id goodRegResponse
            "rc" "id1").1
          0 user7 "f").2.excludeCredentials.map ExcludeCredential.id) :=
  ⟨(claim_C8 bothState 0 user7 "f").2.1 (by decide),
   (claim_C8 bothState 0 user7 "f").2.2 0 goodRegResponse "rc" "id1" (by decide)⟩

/-- C9: a successful registration binding a fresh credential to `uid`,
followed by a successful authentication with that same credential (valid
pending authentication challenge, matching credential id, verifying
assertion, acceptable counter), yields exactly the `userId` that
registration bound (and the id of the created passkey row). -/
theorem claim_C9 (st : ServerState) (now : Nat) (uid : Int)
    (regResp : RegistrationResponseJSON) (c nid : String)
    (now2 : Nat) (authResp : AuthenticationResponseJSON) (c2 : String)
    (cd2 : AuthenticationChallenge)
    (hok : (verifyAndCreatePasskey st now uid regResp c nid).2.isOk = true)
    (hfreshCred : ∀ p ∈ st.passkeys, p.credential_id ≠ regResp.credentialId)
    (hc2 : mapGet AuthenticationChallenge.challenge
      ((verifyAndCreatePasskey st now uid regResp c nid).1).authenticationChallenges
      c2 = some cd2)
    (hexp : ¬ cd2.expires_at < now2)
    (hid : authResp.id = regResp.credentialId)
    (hcrypto : authResp.cryptoValid = true)
    (hcnt : regResp.credCounter < authResp.newCounter ∨
      (regResp.credCounter = 0 ∧ authResp.newCounter = 0)) :
    (verifyAndAuthenticatePasskey
        (verifyAndCreatePasskey st now uid regResp c nid).1
        now2 authResp c2).2 = .ok { userId := uid, passkeyId := nid } := by
  cases hok2 : (verifyAndCreatePasskey st now uid regResp c nid).2 with
  | error e => rw [hok2] at hok; simp [Except.isOk, Except.toBool] at hok
  | ok pk =>
    have hfull : verifyAndCreatePasskey st now uid regResp c nid =
        ((verifyAndCreatePasskey st now uid regResp c nid).1, .ok pk) := by
      rw [← hok2]
    obtain ⟨-, -, -, hpass⟩ :=
      verifyAndCreatePasskey_ok _ _ _ _ _ _ _ _ hfull
    set st1 := (verifyAndCreatePasskey st now uid regResp c nid).1 with hst1
    have hfind : st1.passkeys.find? (fun p => p.credential_id == authResp.id) =
        some (regRow now uid regResp nid) := by
      rw [hpass, List.find?_append]
      have h1 : st.passkeys.find? (fun p => p.credential_id == authResp.id)
          = none := by
        rw [List.find?_eq_none]
        intro x hx
        simp only [hid, beq_iff_eq]
        exact hfreshCred x hx
      rw [h1]
      simp [regRow, hid]
    have hv : verifyAuthenticationResponse authResp
        (regRow now uid regResp nid).counter = .ok authResp.newCounter := by
      rcases hcnt with hlt | ⟨hz1, hz2⟩
      · have hnle : ¬ (authResp.newCounter ≤ regResp.credCounter) := by omega
        simp [verifyAuthenticationResponse, hcrypto, regRow, hnle]
      · simp [verifyAuthenticationResponse, hcrypto, regRow, hz1, hz2]
    simp only [verifyAndAuthenticatePasskey, authPhaseA]
    rw [hc2]
    simp only [hexp, if_false]
    rw [hfind]
    simp only [authPhaseB]
    rw [hv]
    rfl

/-- C9, witness: registering "cred9" for user 7 and then authenticating
with "cred9" returns userId 7 and the new passkey row's id. -/
theorem claim_C9_witness :
    (verifyAndAuthenticatePasskey
        (verifyAndCreatePasskey bothState 0 7 goodRegResponse "rc" "id1").1
        0 authResp9 "ch").2 = .ok { userId := 7, passkeyId := "id1" } :=
  claim_C9 bothState 0 7 goodRegResponse "rc" "id1" 0 authResp9 "ch"
    sampleAuthChallenge (by decide) (by decide) (by decide) (by decide)
    (by decide) (by decide) (by decide)

end TacyStack
